import Mathlib

/-!
# Verification of the AWG_Bot persistence layer and handlers

Shallow embedding of the repository's data model and operations:
* `database.py` — the `Client` dataclass, `add_client`, `get_client`,
  `get_client_by_name`, `get_client_by_public_key`, `update_client`,
  `delete_client`, `_row_to_client`;
* `admin_handlers.py` — `process_client_name`, `process_traffic_limit`,
  `show_client_details`, `regenerate_client_keys`;
* `backup_service.py` — `restore_backup` (and the archive members written
  by `create_backup`);
* `main_keyboards.py` — `parse_handshake_to_days`, `get_activity_emoji`.

Python's dynamic typing matters for the claims about `traffic_limit` (the
creation handler passes a `str` where an `int`-or-`None` is expected), so the
`traffic_limit` field is embedded as a dynamic value `PyVal`.
-/

set_option linter.unusedVariables false

namespace AWGBot

/-- A dynamically typed Python value, restricted to the shapes that flow into
the `traffic_limit` field in the source: `None`, an `int`, or a `str`. -/
inductive PyVal where
  | none : PyVal
  | int : Int → PyVal
  | str : String → PyVal
deriving Repr, DecidableEq

/-- The numeric value of a digit string (used for Python's `int()` on the
traffic keyboard's choices and for SQLite's text-to-integer conversion; the
only numeric texts that arise are `"5"`, `"10"`, `"30"`, `"100"`). -/
def digitStringToInt (s : String) : Int :=
  Int.ofNat (s.data.foldl (fun n c => 10 * n + (c.toNat - '0'.toNat)) 0)

/-- SQLite stores a text value bound to an INTEGER-affinity column
(`traffic_limit INTEGER`) as an integer when the text is a well-formed
integer literal, and as text otherwise.  The only texts this program binds to
that column are the callback strings `"5"`, `"10"`, `"30"`, `"100"` and
`"unlimited"`, so non-empty digit runs cover the conversion exactly. -/
def integerAffinity : PyVal → PyVal
  | PyVal.str s =>
      if s ≠ "" ∧ s.data.all Char.isDigit then PyVal.int (digitStringToInt s)
      else PyVal.str s
  | v => v

/-- The `Client` dataclass of `database.py` (lines 8–28), field for field,
with the source's field defaults.  Timestamps are embedded as ISO strings;
`traffic_limit` is dynamic (see `PyVal`). -/
structure Client where
  id : Option Nat := Option.none
  name : String := ""
  public_key : String := ""
  private_key : String := ""
  preshared_key : String := ""
  ip_address : String := ""
  ipv6_address : String := ""
  has_ipv6 : Bool := false
  endpoint : String := ""
  created_at : Option String := Option.none
  expires_at : Option String := Option.none
  traffic_limit : PyVal := PyVal.none
  traffic_used : Int := 0
  is_active : Bool := true
  is_blocked : Bool := false
  last_ip : String := ""
  daily_ips : String := ""
  owner_id : Option Int := Option.none
deriving Repr, DecidableEq

/-- One row of the `clients` table (schema in `database.py` lines 136–157). -/
structure ClientRow where
  id : Nat
  name : String
  public_key : String
  private_key : String
  preshared_key : String
  ip_address : String
  ipv6_address : String
  has_ipv6 : Bool
  endpoint : String
  created_at : Option String
  expires_at : Option String
  traffic_limit : PyVal
  traffic_used : Int
  is_active : Bool
  is_blocked : Bool
  last_ip : String
  daily_ips : String
  owner_id : Option Int
deriving Repr, DecidableEq

/-- The `clients` table together with the AUTOINCREMENT counter. -/
structure DB where
  rows : List ClientRow
  nextId : Nat
deriving Repr, DecidableEq

def emptyDB : DB := ⟨[], 1⟩

/-- The row built by `add_client`'s INSERT (`database.py` lines 265–281).
The INSERT lists every column except `id`, `created_at` and `traffic_used`,
which therefore take their schema defaults (AUTOINCREMENT,
CURRENT_TIMESTAMP — passed in as `now` — and 0). -/
def rowOfClient (c : Client) (newId : Nat) (now : String) : ClientRow :=
  { id := newId
    name := c.name
    public_key := c.public_key
    private_key := c.private_key
    preshared_key := c.preshared_key
    ip_address := c.ip_address
    ipv6_address := c.ipv6_address
    has_ipv6 := c.has_ipv6
    endpoint := c.endpoint
    created_at := some now
    expires_at := c.expires_at
    traffic_limit := integerAffinity c.traffic_limit
    traffic_used := 0
    is_active := c.is_active
    is_blocked := c.is_blocked
    last_ip := c.last_ip
    daily_ips := c.daily_ips
    owner_id := c.owner_id }

/-- `Database.add_client` (`database.py` lines 265–281): INSERTs the client
and commits; an `IntegrityError` (UNIQUE constraint on `name` or
`ip_address`) propagates to the caller, embedded as `Except.error`. -/
def add_client (db : DB) (c : Client) (now : String) : Except Unit (DB × Nat) :=
  if db.rows.any (fun r => r.name = c.name || r.ip_address = c.ip_address) then
    Except.error ()
  else
    Except.ok (⟨db.rows ++ [rowOfClient c (db.nextId) now], db.nextId + 1⟩, db.nextId)

/-- `Database._row_to_client` (`database.py` lines 510–551): converts a row
back to a `Client`.  As in the source, the constructor call passes every
field except `owner_id`, which therefore takes the dataclass default
`None`. -/
def row_to_client (r : ClientRow) : Client :=
  { id := some r.id
    name := r.name
    public_key := r.public_key
    private_key := r.private_key
    preshared_key := r.preshared_key
    ip_address := r.ip_address
    ipv6_address := r.ipv6_address
    has_ipv6 := r.has_ipv6
    endpoint := r.endpoint
    created_at := r.created_at
    expires_at := r.expires_at
    traffic_limit := r.traffic_limit
    traffic_used := r.traffic_used
    is_active := r.is_active
    is_blocked := r.is_blocked
    last_ip := r.last_ip
    daily_ips := r.daily_ips }

/-- `Database.get_client` (`database.py` lines 310–317): SELECT by id. -/
def get_client (db : DB) (client_id : Nat) : Option Client :=
  (db.rows.find? (fun r => r.id = client_id)).map row_to_client

/-- `Database.get_client_by_name` (`database.py` lines 319–326): SELECT by
exact (BINARY-collation, hence case-sensitive) name equality. -/
def get_client_by_name (db : DB) (name : String) : Option Client :=
  (db.rows.find? (fun r => r.name = name)).map row_to_client

/-- `Database.get_client_by_public_key` (`database.py` lines 328–335). -/
def get_client_by_public_key (db : DB) (public_key : String) : Option Client :=
  (db.rows.find? (fun r => r.public_key = public_key)).map row_to_client

/-- The UPDATE of `Database.update_client` (`database.py` lines 376–394)
applied to a matching row: it SETs exactly `name`, `endpoint`, `expires_at`,
`traffic_limit`, `traffic_used`, `is_active`, `is_blocked`, `last_ip`,
`daily_ips`, `ipv6_address` and `has_ipv6`; no other column appears in the
SET list. -/
def updateRow (c : Client) (r : ClientRow) : ClientRow :=
  { r with
    name := c.name
    endpoint := c.endpoint
    expires_at := c.expires_at
    traffic_limit := integerAffinity c.traffic_limit
    traffic_used := c.traffic_used
    is_active := c.is_active
    is_blocked := c.is_blocked
    last_ip := c.last_ip
    daily_ips := c.daily_ips
    ipv6_address := c.ipv6_address
    has_ipv6 := c.has_ipv6 }

/-- `Database.update_client` (`database.py` lines 376–394): UPDATE … WHERE
id = ?, commit, and report `rowcount > 0`. -/
def update_client (db : DB) (c : Client) : DB × Bool :=
  (⟨db.rows.map (fun r => if some r.id = c.id then updateRow c r else r), db.nextId⟩,
   db.rows.any (fun r => some r.id = c.id))

/-- `Database.delete_client` (`database.py` lines 425–430): DELETE … WHERE
id = ?, commit, and report `rowcount > 0`. -/
def delete_client (db : DB) (client_id : Nat) : DB × Bool :=
  (⟨db.rows.filter (fun r => r.id ≠ client_id), db.nextId⟩,
   db.rows.any (fun r => r.id = client_id))

/-! ## The add-client name step (`admin_handlers.py` lines 529–593) -/

/-- Python's `str.isalnum` on a single character, on the character ranges
that occur in this development: ASCII letters, ASCII digits, and Cyrillic
letters (U+0400–U+04FF) are all alphanumeric for Python.  (Python's
`isalnum` is true on further Unicode categories that never arise here.) -/
def pyIsAlnumChar (c : Char) : Bool :=
  c.isAlpha || c.isDigit || (0x400 ≤ c.toNat && c.toNat ≤ 0x4FF)

/-- Python's `str.isalnum`: true iff the string is non-empty and every
character is alphanumeric (`''.isalnum()` is `False`). -/
def pyStrIsAlnum (s : String) : Bool :=
  !s.data.isEmpty && s.data.all pyIsAlnumChar

/-- `name.replace('-', '').replace('_', '').replace('.', '')`: removes every
occurrence of the three separator characters. -/
def stripSeparators (s : String) : String :=
  ⟨s.data.filter (fun c => !(c == '-' || c == '_' || c == '.'))⟩

/-- Outcome of the name step: on rejection the handler returns after
re-prompting in place, so the FSM stays in `waiting_name` and nothing is
stored; on acceptance the name is stored in the wizard data and the flow
advances. -/
inductive NameStepResult where
  | rejected
  | accepted
deriving Repr, DecidableEq

/-- `process_client_name`'s validation chain (`admin_handlers.py` lines
540–593), applied to the already-whitespace-stripped message text:
`if not name or len(name) < 2 or len(name) > 32` → reject;
`if not name.replace('-','').replace('_','').replace('.','').isalnum()` →
reject; `if await db.get_client_by_name(name)` → reject; else the name is
accepted. -/
def process_client_name (db : DB) (name : String) : NameStepResult :=
  if name = "" ∨ name.length < 2 ∨ name.length > 32 then NameStepResult.rejected
  else if !(pyStrIsAlnum (stripSeparators name)) then NameStepResult.rejected
  else
    match get_client_by_name db name with
    | some _ => NameStepResult.rejected
    | Option.none => NameStepResult.accepted

/-- The name-acceptance condition exactly as the claim words it (spec §4.12):
length between 2 and 32, every character an ASCII letter, ASCII digit, `-`,
`_` or `.`, and no stored client with exactly that name.  Stated separately
from `process_client_name` (which is translated from the source) so the two
can be compared. -/
def claimNameOk (db : DB) (name : String) : Bool :=
  2 ≤ name.length && name.length ≤ 32 &&
  name.data.all (fun c => c.isAlpha || c.isDigit || c == '-' || c == '_' || c == '.') &&
  !(db.rows.any (fun r => r.name == name))

/-! ## The client-details permission check (`admin_handlers.py` lines 1056–1074) -/

/-- Outcome of `show_client_details` up to and including its permission
check.  `accessDenied` is the alert answer (`show_alert=True`) followed by an
immediate `return`: no database write, no FSM change. -/
inductive DetailsResult where
  | notFound
  | accessDenied
  | shown
deriving Repr, DecidableEq

/-- `show_client_details` (`admin_handlers.py` lines 1056–1074): fetch the
client by id; if absent report not-found; then
`if user_id not in config.admin_ids and client.owner_id != user_id` answer
an access-denied alert and return; otherwise the detail view is rendered.
The comparison `client.owner_id != user_id` compares the fetched record's
`owner_id` (an `Option Int`) with the requesting user id. -/
def show_client_details (admin_ids : List Int) (db : DB) (user_id : Int)
    (client_id : Nat) : DetailsResult :=
  match get_client db client_id with
  | Option.none => DetailsResult.notFound
  | some client =>
    if user_id ∉ admin_ids ∧ client.owner_id ≠ some user_id then
      DetailsResult.accessDenied
    else
      DetailsResult.shown

/-! ## Key regeneration (`admin_handlers.py` lines 2312–2335) -/

/-- Outcome of `regenerate_client_keys`: `success` is the
"keys regenerated" message, `saveError` the "error saving new keys"
message. -/
inductive RegenResult where
  | notFound
  | success
  | saveError
deriving Repr, DecidableEq

/-- `regenerate_client_keys` (`admin_handlers.py` lines 2312–2335): fetch
the client, remove the old peer from the live interface (no database
effect), overwrite the in-memory object's `private_key`/`public_key` with
the freshly generated pair, persist via `update_client`, and report success
from `update_client`'s boolean.  (On success and a non-blocked client the
new key is also re-applied to the live interface — a live-interface call
with no database effect.) -/
def regenerate_client_keys (db : DB) (client_id : Nat)
    (new_private_key new_public_key : String) : DB × RegenResult :=
  match get_client db client_id with
  | Option.none => (db, RegenResult.notFound)
  | some client =>
    let client' := { client with
      private_key := new_private_key
      public_key := new_public_key }
    let res := update_client db client'
    if res.2 then (res.1, RegenResult.success) else (res.1, RegenResult.saveError)

/-! ## The traffic-cap step that creates the client
(`admin_handlers.py` lines 883–994) -/

/-- The wizard data accumulated before the traffic-cap step. -/
structure WizardData where
  name : String
  endpoint : String
  expires_at : Option String
  has_ipv6 : Bool
deriving Repr, DecidableEq

/-- The environment of one `process_traffic_limit` run: configuration and
the results of the external peer-manager calls performed in it. -/
structure CreateEnv where
  ipv6_enabled : Bool
  gen_private : String
  gen_public : String
  gen_preshared : String
  ipv4_alloc : String
  ipv6_alloc : String
  add_peer_ok : Bool
deriving Repr, DecidableEq

/-- The message shown by `process_traffic_limit`:
`noFreeIp` = "no free IP address"; `created` = success;
`serverError` = "error adding the client to the server" (record deleted);
`genericError` = the generic `except`-branch message "error while creating
the client". -/
inductive CreateResult where
  | noFreeIp
  | created
  | serverError
  | genericError
deriving Repr, DecidableEq

/-- `process_traffic_limit` (`admin_handlers.py` lines 883–994).
`choice` is `callback.data.split(":", 1)[1]` — one of `"5"`, `"10"`,
`"30"`, `"100"`, `"unlimited"` from the traffic keyboard (so `int(choice)`
is modelled total via `toInt?`).  The handler computes
`traffic_limit_bytes` and writes it to the FSM state, but the `Client` it
constructs receives the raw string `choice` in its `traffic_limit` field.
When IPv6 was chosen, IPv6 is enabled and the IPv6 allocator returns an
empty address, the fallback branch calls the undefined name
`editor_send_message`; the resulting `NameError` is caught by the
handler's generic `except` branch before any database write. -/
def process_traffic_limit (env : CreateEnv) (data : WizardData) (choice : String)
    (user_id : Int) (db : DB) (now : String) : DB × CreateResult :=
  let traffic_limit_bytes : PyVal :=
    if choice ≠ "unlimited" then
      PyVal.int (digitStringToInt choice * (1024 * 1024 * 1024))
    else PyVal.none
  let ip_address := env.ipv4_alloc
  if data.has_ipv6 ∧ env.ipv6_enabled ∧ env.ipv6_alloc = "" then
    (db, CreateResult.genericError)
  else
    let ipv6_address := if data.has_ipv6 ∧ env.ipv6_enabled then env.ipv6_alloc else ""
    let has_ipv6 := data.has_ipv6
    if ip_address = "" then (db, CreateResult.noFreeIp)
    else
      let client : Client :=
        { name := data.name
          public_key := env.gen_public
          private_key := env.gen_private
          preshared_key := env.gen_preshared
          ip_address := ip_address
          ipv6_address := ipv6_address
          has_ipv6 := has_ipv6
          endpoint := data.endpoint
          expires_at := data.expires_at
          traffic_limit := PyVal.str choice
          is_active := true
          is_blocked := false
          owner_id := some user_id }
      match add_client db client now with
      | Except.error _ => (db, CreateResult.genericError)
      | Except.ok (db', client_id) =>
        if env.add_peer_ok then (db', CreateResult.created)
        else ((delete_client db' client_id).1, CreateResult.serverError)

/-! ## Backup service (`backup_service.py`) -/

/-- The archive member names written by the archive-write statements present
in `create_backup` (`backup_service.py` lines 23–66).  The only such
statement in the source is `zipf.write(self.config.database_path,
'database.db')` on line 59; no statement writes a `clients.json` member.
(The function body as written is not even well-formed: the `client_data`
dictionary literal opened on line 46 is never closed, the write statement
sits inside it, and no `zipfile.ZipFile` is ever opened for writing.) -/
def create_backup_member_names : List String := ["database.db"]

/-- One entry of the `clients` array of a backup's `clients.json`, with
exactly the keys `restore_backup` reads (`backup_service.py` lines
112–125). -/
structure BackupClient where
  name : String
  public_key : String
  private_key : String
  ip_address : String
  endpoint : String
  expires_at : Option String
  traffic_limit : PyVal
  traffic_used : Int
  is_active : Bool
  is_blocked : Bool
  owner_id : Option Int
deriving Repr, DecidableEq

/-- The `Client(...)` constructed from one backup entry during restore
(`backup_service.py` lines 113–125): `preshared_key`, `ipv6_address` and
`has_ipv6` are not passed and take the dataclass defaults. -/
def clientOfBackup (b : BackupClient) : Client :=
  { name := b.name
    public_key := b.public_key
    private_key := b.private_key
    ip_address := b.ip_address
    endpoint := b.endpoint
    expires_at := b.expires_at
    traffic_limit := b.traffic_limit
    traffic_used := b.traffic_used
    is_active := b.is_active
    is_blocked := b.is_blocked
    owner_id := b.owner_id }

/-- The deletion loop of `restore_backup` (`backup_service.py` lines
108–110): snapshot the current clients, then `delete_client` each one; each
deletion commits on its own. -/
def deleteAllCurrent (db : DB) : DB :=
  (db.rows.map (fun r => r.id)).foldl (fun d i => (delete_client d i).1) db

/-- The re-insertion loop of `restore_backup` (`backup_service.py` lines
112–126): `add_client` each backup entry in order; each insertion commits on
its own.  An insertion failure propagates to `restore_backup`'s `except`
handler, which returns `False` — the deletions and the previously committed
insertions remain. -/
def restoreInserts (now : String) : DB → List BackupClient → DB × Bool
  | d, [] => (d, true)
  | d, b :: rest =>
    match add_client d (clientOfBackup b) now with
    | Except.error _ => (d, false)
    | Except.ok (d', _) => restoreInserts now d' rest

/-- `restore_backup` (`backup_service.py` lines 89–133) from the point the
archive is open: when the archive has no `clients.json` member
(`manifest = none`) return `False` with the database untouched; otherwise
delete every current client, then re-insert each entry of the backup's
client list. -/
def restore_backup (db : DB) (manifest : Option (List BackupClient))
    (now : String) : DB × Bool :=
  match manifest with
  | Option.none => (db, false)
  | some clients => restoreInserts now (deleteAllCurrent db) clients

/-! ## Activity indicator (`main_keyboards.py` lines 8–68) -/

/-- Python `str.lower` (ASCII case folding; the strings compared here —
`"never"`, `"никогда"` and the lower-case unit words — are unchanged by
folding beyond ASCII). -/
def pyLower (s : String) : String := ⟨s.data.map Char.toLower⟩

/-- The seven `(\d+)\s*(?:alt₁|alt₂|…)` patterns of
`parse_handshake_to_days` with their second multipliers
(`main_keyboards.py` lines 20–28); `д[нея]` is the three alternatives
`дн`/`де`/`дя`. -/
def handshakePatterns : List (List String × Nat) :=
  [ (["second", "секунд"], 1),
    (["minute", "минут"], 60),
    (["hour", "час"], 3600),
    (["day", "дн", "де", "дя"], 86400),
    (["week", "недел"], 604800),
    (["month", "месяц"], 2592000),
    (["year", "год", "лет"], 31536000) ]

/-- Value of a digit run. -/
def digitsToNat (ds : List Char) : Nat :=
  ds.foldl (fun n c => 10 * n + (c.toNat - '0'.toNat)) 0

/-- A match of `(\d+)\s*(?:alt…)` starting exactly at the given position: a
non-empty maximal digit run, optional whitespace, then one of the
alternatives, case-insensitively.  (Greedy `\d+` never needs to backtrack
here because after `\s*` the pattern requires a letter, never a digit.) -/
def matchTokenAt (alts : List String) (cs : List Char) : Option Nat :=
  let ds := cs.takeWhile Char.isDigit
  let rest := (cs.dropWhile Char.isDigit).dropWhile Char.isWhitespace
  if ds.isEmpty then Option.none
  else if alts.any (fun a => (a.data.map Char.toLower).isPrefixOf (rest.map Char.toLower)) then
    some (digitsToNat ds)
  else Option.none

/-- `re.search` with one of the patterns above: the leftmost position where
the pattern matches, scanning left to right. -/
def searchToken (alts : List String) : List Char → Option Nat
  | [] => Option.none
  | c :: rest =>
    match matchTokenAt alts (c :: rest) with
    | some n => some n
    | Option.none => searchToken alts rest

/-- The `total_seconds` accumulated by `parse_handshake_to_days`'s pattern
loop (`main_keyboards.py` lines 30–33): each pattern contributes
`first-match-number × multiplier` seconds. -/
def handshakeTotalSeconds (handshake_str : String) : Nat :=
  (handshakePatterns.map (fun p =>
    match searchToken p.1 handshake_str.data with
    | some n => n * p.2
    | Option.none => 0)).sum

/-- `parse_handshake_to_days` (`main_keyboards.py` lines 8–38): `None` for a
falsy string or a string whose lower-casing is `"never"`/`"никогда"`; `None`
for a zero total; otherwise the total seconds divided by 86400, as an exact
rational. -/
def parse_handshake_to_days (handshake_str : String) : Option ℚ :=
  if handshake_str = "" ∨ pyLower handshake_str = "never" ∨
      pyLower handshake_str = "никогда" then
    Option.none
  else if handshakeTotalSeconds handshake_str = 0 then Option.none
  else some ((handshakeTotalSeconds handshake_str : ℚ) / 86400)

/-- `get_activity_emoji` (`main_keyboards.py` lines 41–68).  The statistics
record is the per-peer dict from `get_interface_stats`; Python's
`if not client_stats` is true both for `None` and for an empty dict. -/
def get_activity_emoji (client : Client)
    (client_stats : Option (List (String × String))) : String :=
  if ¬ client.is_active ∨ client.is_blocked then "🔴"
  else
    match client_stats with
    | Option.none => "⚪"
    | some stats =>
      if stats.isEmpty then "⚪"
      else
        let handshake_str :=
          ((stats.find? (fun kv => kv.1 = "latest handshake")).map Prod.snd).getD ""
        match parse_handshake_to_days handshake_str with
        | Option.none => "⚪"
        | some days =>
          if days ≤ 7 then "🟢"
          else if days ≤ 14 then "🟡"
          else "🟠"

/-! ## Concrete test inputs -/

/-- A concrete client with every field supplied, including an owner. -/
def sampleClient : Client :=
  { name := "alice"
    public_key := "PUB0"
    private_key := "PRIV0"
    preshared_key := "PSK0"
    ip_address := "10.0.0.2"
    ipv6_address := "fd00::2"
    has_ipv6 := true
    endpoint := "vpn.example.com:51820"
    expires_at := some "2025-01-01T00:00:00"
    traffic_limit := PyVal.int 5368709120
    traffic_used := 0
    is_active := true
    is_blocked := false
    last_ip := ""
    daily_ips := ""
    owner_id := some 42 }

/-- The database after inserting `sampleClient` into an empty database. -/
def sampleDB : DB :=
  match add_client emptyDB sampleClient "2024-06-01 12:00:00" with
  | Except.ok (d, _) => d
  | Except.error _ => emptyDB

/-- The client object returned when `sampleClient`'s record is fetched. -/
def sampleFetched : Client := (get_client sampleDB 1).getD {}

/-- The regenerate-keys run on `sampleDB` with the fresh pair
`("PRIV1", "PUB1")`. -/
def sampleRegen : DB × RegenResult := regenerate_client_keys sampleDB 1 "PRIV1" "PUB1"

/-- The client fetched after that regenerate-keys run. -/
def sampleRegenFetched : Client := (get_client sampleRegen.1 1).getD {}

/-- A backup entry named "bob". -/
def bkBob : BackupClient :=
  { name := "bob"
    public_key := "PUBB"
    private_key := "PRIVB"
    ip_address := "10.0.0.3"
    endpoint := "vpn.example.com:51820"
    expires_at := Option.none
    traffic_limit := PyVal.none
    traffic_used := 0
    is_active := true
    is_blocked := false
    owner_id := Option.none }

/-- A second backup entry with the same name "bob" (its insertion violates
the UNIQUE constraint on `name`). -/
def bkBobDup : BackupClient :=
  { bkBob with public_key := "PUBB2", ip_address := "10.0.0.4" }

/-- Environment of an add-client completion with IPv6 enabled, the IPv6
allocator exhausted (empty result), and everything else healthy. -/
def ipv6Env : CreateEnv :=
  { ipv6_enabled := true
    gen_private := "PRIV"
    gen_public := "PUB"
    gen_preshared := "PSK"
    ipv4_alloc := "10.0.0.2"
    ipv6_alloc := ""
    add_peer_ok := true }

/-- Wizard data of a user who chose IPv6. -/
def ipv6Data : WizardData :=
  { name := "carol"
    endpoint := "vpn.example.com:51820"
    expires_at := Option.none
    has_ipv6 := true }

/-- Environment of an IPv4-only add-client completion. -/
def createEnv : CreateEnv := { ipv6Env with ipv6_enabled := false }

/-- Wizard data of a user who did not choose IPv6. -/
def createData : WizardData := { ipv6Data with has_ipv6 := false }

/-- The creation run for the fixed 5 GB traffic choice. -/
def sampleCreate5 : DB × CreateResult :=
  process_traffic_limit createEnv createData "5" 42 emptyDB "2024-06-01 12:00:00"

/-- The creation run for the "unlimited" traffic choice. -/
def sampleCreateUnlimited : DB × CreateResult :=
  process_traffic_limit createEnv createData "unlimited" 42 emptyDB "2024-06-01 12:00:00"

/-! # Theorems -/

/-- Pointwise transfer between a list and its image under a map. -/
theorem forall₂_map_self {α β : Type} {P : α → β → Prop} (f : α → β) (l : List α)
    (h : ∀ a, P a (f a)) : List.Forall₂ P l (l.map f) := by
  induction l with
  | nil => exact List.Forall₂.nil
  | cons a t ih => exact List.Forall₂.cons (h a) ih

/-- C7: `update_client`'s UPDATE sets only the mutable columns; row for row,
the identity fields `public_key`, `private_key`, `preshared_key`,
`ip_address`, `created_at` and `owner_id` (and the row id itself) are
unchanged by any `update_client` call. -/
theorem update_client_preserves_identity (db : DB) (c : Client) :
    List.Forall₂ (fun r r' =>
        r'.id = r.id ∧ r'.public_key = r.public_key ∧
        r'.private_key = r.private_key ∧ r'.preshared_key = r.preshared_key ∧
        r'.ip_address = r.ip_address ∧ r'.created_at = r.created_at ∧
        r'.owner_id = r.owner_id)
      db.rows (update_client db c).1.rows := by
  refine forall₂_map_self _ db.rows (fun r => ?_)
  by_cases h : some r.id = c.id <;> simp [updateRow, h]

/-- C2: inserting `sampleClient` (which carries `owner_id = 42`) and fetching
it back by id, by name and by public key returns the same record for all
three fetchers, with every claimed field equal to the inserted value except
`owner_id`, which comes back as `None` because `_row_to_client` never passes
it. -/
theorem roundtrip_drops_owner_id :
    sampleClient.owner_id = some 42 ∧
    get_client sampleDB 1 = some sampleFetched ∧
    get_client_by_name sampleDB "alice" = some sampleFetched ∧
    get_client_by_public_key sampleDB "PUB0" = some sampleFetched ∧
    sampleFetched.owner_id = Option.none ∧
    (sampleFetched.name, sampleFetched.public_key, sampleFetched.private_key,
     sampleFetched.preshared_key, sampleFetched.ip_address,
     sampleFetched.ipv6_address, sampleFetched.has_ipv6, sampleFetched.endpoint,
     sampleFetched.expires_at, sampleFetched.traffic_limit,
     sampleFetched.is_active, sampleFetched.is_blocked) =
    (sampleClient.name, sampleClient.public_key, sampleClient.private_key,
     sampleClient.preshared_key, sampleClient.ip_address,
     sampleClient.ipv6_address, sampleClient.has_ipv6, sampleClient.endpoint,
     sampleClient.expires_at, sampleClient.traffic_limit,
     sampleClient.is_active, sampleClient.is_blocked) :=
  ⟨rfl, rfl, rfl, rfl, rfl, rfl⟩

/-- C3: the stored record's `owner_id` is 42, user 42 is not an
administrator, yet a `client_details` request by user 42 is answered with
the access-denied alert rather than the detail view, because the fetched
client's `owner_id` is `None` (dropped by `_row_to_client`). -/
theorem owner_denied_client_details :
    sampleDB.rows.map (fun r => r.owner_id) = [some 42] ∧
    (42 : Int) ∉ ([] : List Int) ∧
    show_client_details [] sampleDB 42 1 = DetailsResult.accessDenied := by
  decide

/-- C4: after `regenerate_client_keys` reports success, fetching the client
returns the OLD public and private keys (the UPDATE of `update_client` never
writes the key columns), while the preshared key and the addresses are
unchanged as claimed. -/
theorem regenerate_keys_not_persisted :
    sampleRegen.2 = RegenResult.success ∧
    get_client sampleRegen.1 1 = some sampleRegenFetched ∧
    sampleRegenFetched.public_key = "PUB0" ∧
    sampleRegenFetched.public_key ≠ "PUB1" ∧
    sampleRegenFetched.private_key = "PRIV0" ∧
    sampleRegenFetched.preshared_key = sampleClient.preshared_key ∧
    sampleRegenFetched.ip_address = sampleClient.ip_address ∧
    sampleRegenFetched.ipv6_address = sampleClient.ipv6_address := by
  decide

/-- C5: no archive-write statement of `create_backup` produces a
`clients.json` member; the only member name written in the source is
`database.db`. -/
theorem create_backup_lacks_manifest :
    "clients.json" ∉ create_backup_member_names ∧
    "database.db" ∈ create_backup_member_names := by
  decide

/-- C1: completing the wizard with the fixed 5 GB choice inserts a record
whose `traffic_limit` is the raw callback value (stored as the integer 5
after SQLite's INTEGER-affinity conversion of the string "5"), not
5 × 1024³ bytes; choosing "unlimited" inserts the text value "unlimited",
not NULL. -/
theorem traffic_limit_stored_raw :
    sampleCreate5.2 = CreateResult.created ∧
    sampleCreate5.1.rows.map (fun r => r.traffic_limit) = [PyVal.int 5] ∧
    PyVal.int 5 ≠ PyVal.int (5 * 1024 * 1024 * 1024) ∧
    sampleCreateUnlimited.2 = CreateResult.created ∧
    sampleCreateUnlimited.1.rows.map (fun r => r.traffic_limit) =
      [PyVal.str "unlimited"] ∧
    PyVal.str "unlimited" ≠ PyVal.none := by
  decide

/-- C10: whenever the wizard completes with IPv6 chosen, IPv6 enabled and an
empty IPv6 allocation, `process_traffic_limit` takes the branch that calls
the undefined name `editor_send_message`; the resulting exception reaches
the generic handler, so the database is unchanged (no client record) and the
generic creation-failure message is shown. -/
theorem ipv6_exhausted_generic_error (env : CreateEnv) (data : WizardData)
    (choice : String) (user_id : Int) (db : DB) (now : String)
    (h6 : data.has_ipv6 = true) (hen : env.ipv6_enabled = true)
    (ha : env.ipv6_alloc = "") :
    process_traffic_limit env data choice user_id db now =
      (db, CreateResult.genericError) := by
  simp [process_traffic_limit, h6, hen, ha]

/-- Witness for C10 at a concrete environment. -/
theorem ipv6_exhausted_generic_error_witness :
    ipv6Data.has_ipv6 = true ∧ ipv6Env.ipv6_enabled = true ∧
    ipv6Env.ipv6_alloc = "" ∧
    process_traffic_limit ipv6Env ipv6Data "5" 7 emptyDB "now" =
      (emptyDB, CreateResult.genericError) :=
  ⟨rfl, rfl, rfl,
   ipv6_exhausted_generic_error ipv6Env ipv6Data "5" 7 emptyDB "now" rfl rfl rfl⟩

/-- A row surviving a fold of single-row deletions was present before and
its id is outside the deleted list. -/
theorem mem_foldl_delete {ids : List Nat} {d : DB} {r : ClientRow}
    (h : r ∈ (ids.foldl (fun d i => (delete_client d i).1) d).rows) :
    r ∈ d.rows ∧ ∀ i ∈ ids, r.id ≠ i := by
  induction ids generalizing d with
  | nil => exact ⟨h, by simp⟩
  | cons i t ih =>
    obtain ⟨hmem, hrest⟩ := ih (d := (delete_client d i).1) h
    have hmem' : r ∈ d.rows ∧ r.id ≠ i := by
      simpa [delete_client, List.mem_filter] using hmem
    refine ⟨hmem'.1, ?_⟩
    intro j hj
    rcases List.mem_cons.mp hj with hji | hjt
    · rw [hji]; exact hmem'.2
    · exact hrest j hjt

/-- The deletion loop of `restore_backup` empties the `clients` table. -/
theorem deleteAllCurrent_rows (db : DB) : (deleteAllCurrent db).rows = [] := by
  rcases h : (deleteAllCurrent db).rows with _ | ⟨r, t⟩
  · rfl
  · exfalso
    have hr : r ∈ (deleteAllCurrent db).rows := by
      rw [h]; exact List.mem_cons_self r t
    unfold deleteAllCurrent at hr
    obtain ⟨hmem, hid⟩ := mem_foldl_delete hr
    exact hid r.id (List.mem_map_of_mem _ hmem) rfl

/-- `add_client` success appends exactly the inserted row. -/
theorem add_client_ok_rows {db : DB} {c : Client} {now : String} {p : DB × Nat}
    (h : add_client db c now = Except.ok p) :
    p.1.rows = db.rows ++ [rowOfClient c db.nextId now] := by
  unfold add_client at h
  split at h
  · simp at h
  · cases h; rfl

/-- Every row surviving the re-insertion loop of `restore_backup` was
already present when the loop started or stems from a backup entry. -/
theorem mem_restoreInserts {now : String} {cs : List BackupClient} {d : DB}
    {r : ClientRow} (h : r ∈ (restoreInserts now d cs).1.rows) :
    r ∈ d.rows ∨ ∃ b ∈ cs, r.name = b.name ∧ r.public_key = b.public_key := by
  induction cs generalizing d with
  | nil => exact Or.inl (by simpa [restoreInserts] using h)
  | cons b t ih =>
    cases hadd : add_client d (clientOfBackup b) now with
    | error e =>
      simp only [restoreInserts, hadd] at h
      exact Or.inl h
    | ok p =>
      obtain ⟨d', i⟩ := p
      simp only [restoreInserts, hadd] at h
      rcases ih (d := d') h with hd | hex
      · rw [add_client_ok_rows hadd] at hd
        rcases List.mem_append.mp hd with hl | hr
        · exact Or.inl hl
        · have hreq : r = rowOfClient (clientOfBackup b) d.nextId now := by
            simpa using hr
          exact Or.inr ⟨b, List.mem_cons_self b t, by rw [hreq]; rfl,
            by rw [hreq]; rfl⟩
      · obtain ⟨b', hb', hn⟩ := hex
        exact Or.inr ⟨b', List.mem_cons_of_mem b hb', hn⟩

/-- C6 counterexample: on `sampleDB` (holding client "alice"), restoring a
manifest whose second entry repeats the first's name fails — the second
insertion violates the UNIQUE name constraint and `restore_backup` returns
`False` — yet the database is NOT in its pre-restore state: "alice" is gone
and the first backup entry "bob" is committed. -/
theorem restore_failure_leaves_partial_state :
    (restore_backup sampleDB (some [bkBob, bkBobDup]) "now").2 = false ∧
    (restore_backup sampleDB (some [bkBob, bkBobDup]) "now").1.rows.map
      (fun r => r.name) = ["bob"] ∧
    sampleDB.rows.map (fun r => r.name) = ["alice"] := by
  decide

/-- C6 amended: `restore_backup`'s delete-then-reinsert is not one
transaction — every delete and insert commits individually.  What does hold:
once a manifest is present, every row left in the database after the restore
attempt (successful or failed partway) stems from the backup's client list;
rows of the pre-restore state never survive, and on a partway failure the
successfully re-inserted prefix remains committed. -/
theorem restore_backup_rows_from_manifest (db : DB) (cs : List BackupClient)
    (now : String) :
    ∀ r ∈ (restore_backup db (some cs) now).1.rows,
      ∃ b ∈ cs, r.name = b.name ∧ r.public_key = b.public_key := by
  intro r hr
  have h : r ∈ (restoreInserts now (deleteAllCurrent db) cs).1.rows := by
    simpa [restore_backup] using hr
  rcases mem_restoreInserts h with hmem | hex
  · rw [deleteAllCurrent_rows] at hmem
    cases hmem
  · exact hex

/-- Witness for C6's amended statement at a concrete restore. -/
theorem restore_backup_rows_from_manifest_witness :
    rowOfClient (clientOfBackup bkBob) 2 "now" ∈
      (restore_backup sampleDB (some [bkBob]) "now").1.rows ∧
    ∃ b ∈ [bkBob],
      (rowOfClient (clientOfBackup bkBob) 2 "now").name = b.name ∧
      (rowOfClient (clientOfBackup bkBob) 2 "now").public_key = b.public_key :=
  ⟨by decide,
   restore_backup_rows_from_manifest sampleDB [bkBob] "now" _ (by decide)⟩

/-- C8 counterexample: with no stored clients, the name `"--"` satisfies the
claim's acceptance condition (length 2, characters drawn from the allowed
set) yet `process_client_name` rejects it (Python's `''.isalnum()` is false
once the separators are stripped); conversely the Cyrillic name `"аб"`
fails the claim's ASCII-only condition yet is accepted by the code
(Python's `isalnum` is Unicode-aware). -/
theorem name_rule_differs_from_claim :
    claimNameOk emptyDB "--" = true ∧
    process_client_name emptyDB "--" = NameStepResult.rejected ∧
    claimNameOk emptyDB "аб" = false ∧
    process_client_name emptyDB "аб" = NameStepResult.accepted := by
  decide

/-- A list with a member is not empty (Boolean form). -/
theorem isEmpty_false_of_mem {α : Type} {a : α} {l : List α} (h : a ∈ l) :
    l.isEmpty = false := by
  cases l
  · cases h
  · rfl

/-- A Boolean-nonempty list has a member. -/
theorem exists_mem_of_isEmpty_false {α : Type} {l : List α}
    (h : l.isEmpty = false) : ∃ a, a ∈ l := by
  cases l
  · simp at h
  · exact ⟨_, List.mem_cons_self _ _⟩

/-- The Boolean isalnum-after-strip test matches the character-wise
description: all characters alphanumeric-or-separator and at least one
alphanumeric. -/
theorem pyStrIsAlnum_strip_iff (name : String) :
    pyStrIsAlnum (stripSeparators name) = true ↔
      ((∀ c ∈ name.data, pyIsAlnumChar c = true ∨ c = '-' ∨ c = '_' ∨ c = '.') ∧
       ∃ c ∈ name.data, pyIsAlnumChar c = true) := by
  unfold pyStrIsAlnum stripSeparators
  rw [Bool.and_eq_true, List.all_eq_true, Bool.not_eq_true']
  constructor
  · rintro ⟨hne, hall⟩
    constructor
    · intro c hc
      by_cases hsep : c = '-' ∨ c = '_' ∨ c = '.'
      · tauto
      · push_neg at hsep
        refine Or.inl (hall c ?_)
        rw [List.mem_filter]
        refine ⟨hc, ?_⟩
        simp [hsep.1, hsep.2.1, hsep.2.2]
    · obtain ⟨c, hc⟩ := exists_mem_of_isEmpty_false hne
      exact ⟨c, (List.mem_filter.mp hc).1, hall c hc⟩
  · rintro ⟨hall, c, hc, halnum⟩
    have hcf : c ∈ List.filter (fun c => !(c == '-' || c == '_' || c == '.'))
        name.data := by
      rw [List.mem_filter]
      refine ⟨hc, ?_⟩
      have h1 : c ≠ '-' := fun h => by rw [h] at halnum; exact absurd halnum (by decide)
      have h2 : c ≠ '_' := fun h => by rw [h] at halnum; exact absurd halnum (by decide)
      have h3 : c ≠ '.' := fun h => by rw [h] at halnum; exact absurd halnum (by decide)
      simp [h1, h2, h3]
    refine ⟨isEmpty_false_of_mem hcf, ?_⟩
    intro x hx
    obtain ⟨hxd, hxsep⟩ := List.mem_filter.mp hx
    rcases hall x hxd with h | h | h | h
    · exact h
    all_goals (rw [h] at hxsep; exact absurd hxsep (by decide))

/-- C8 amended: the add-client name step accepts a name iff its length is
between 2 and 32, every character is alphanumeric in Python's Unicode sense
or one of `-`, `_`, `.`, at least one character is alphanumeric, and no
stored client has exactly that name; a rejected name leaves the wizard at
the same step with nothing stored. -/
theorem process_client_name_accept_iff (db : DB) (name : String) :
    process_client_name db name = NameStepResult.accepted ↔
      (2 ≤ name.length ∧ name.length ≤ 32 ∧
       (∀ c ∈ name.data, pyIsAlnumChar c = true ∨ c = '-' ∨ c = '_' ∨ c = '.') ∧
       (∃ c ∈ name.data, pyIsAlnumChar c = true) ∧
       ∀ r ∈ db.rows, r.name ≠ name) := by
  unfold process_client_name
  by_cases h1 : name = "" ∨ name.length < 2 ∨ name.length > 32
  · rw [if_pos h1]
    constructor
    · intro h; exact absurd h (by simp)
    · rintro ⟨hl, hr, -, -, -⟩
      rcases h1 with he | hlt | hgt
      · rw [he] at hl; exact absurd hl (by decide)
      · omega
      · omega
  · rw [if_neg h1]
    push_neg at h1
    obtain ⟨hne, hge, hle⟩ := h1
    by_cases h2 : pyStrIsAlnum (stripSeparators name) = true
    · rw [h2]
      rw [if_neg (by simp)]
      cases hf : get_client_by_name db name with
      | some c =>
        unfold get_client_by_name at hf
        rw [Option.map_eq_some'] at hf
        obtain ⟨r0, hr0, -⟩ := hf
        have hmem := List.mem_of_find?_eq_some hr0
        have hpred : r0.name = name := by simpa using List.find?_some hr0
        constructor
        · intro h; exact absurd h (by simp)
        · rintro ⟨-, -, -, -, hforall⟩
          exact absurd hpred (hforall r0 hmem)
      | none =>
        unfold get_client_by_name at hf
        rw [Option.map_eq_none'] at hf
        rw [List.find?_eq_none] at hf
        constructor
        · intro _
          obtain ⟨hall, hex⟩ := (pyStrIsAlnum_strip_iff name).mp h2
          refine ⟨by omega, by omega, hall, hex, ?_⟩
          intro r hr hcontra
          exact hf r hr (by simp [hcontra])
        · intro _; rfl
    · rw [Bool.not_eq_true] at h2
      rw [h2]
      rw [if_pos (by simp)]
      constructor
      · intro h; exact absurd h (by simp)
      · rintro ⟨-, -, hall, hex, -⟩
        have := (pyStrIsAlnum_strip_iff name).mpr ⟨hall, hex⟩
        rw [h2] at this
        exact absurd this (by simp)

/-- Evaluating `get_activity_emoji` for an active, non-blocked client with a
single-entry statistics record reduces to classifying the parsed handshake
age. -/
theorem get_activity_emoji_active (c : Client) (ha : c.is_active = true)
    (hb : c.is_blocked = false) (s : String) :
    get_activity_emoji c (some [("latest handshake", s)]) =
      (match parse_handshake_to_days s with
       | Option.none => "⚪"
       | some days => if days ≤ 7 then "🟢" else if days ≤ 14 then "🟡" else "🟠") := by
  unfold get_activity_emoji
  rw [if_neg (by simp [ha, hb])]
  rfl

/-- The handshake string "3 days, 2 hours ago" parses to 266400 seconds. -/
theorem parse_three_days : parse_handshake_to_days "3 days, 2 hours ago" =
    some ((266400 : ℚ) / 86400) := by
  have h : handshakeTotalSeconds "3 days, 2 hours ago" = 266400 := by decide
  unfold parse_handshake_to_days
  rw [if_neg (by decide), h, if_neg (by decide)]
  norm_num

/-- The handshake string "10 days ago" parses to 864000 seconds. -/
theorem parse_ten_days : parse_handshake_to_days "10 days ago" =
    some ((864000 : ℚ) / 86400) := by
  have h : handshakeTotalSeconds "10 days ago" = 864000 := by decide
  unfold parse_handshake_to_days
  rw [if_neg (by decide), h, if_neg (by decide)]
  norm_num

/-- The handshake string "20 days ago" parses to 1728000 seconds. -/
theorem parse_twenty_days : parse_handshake_to_days "20 days ago" =
    some ((1728000 : ℚ) / 86400) := by
  have h : handshakeTotalSeconds "20 days ago" = 1728000 := by decide
  unfold parse_handshake_to_days
  rw [if_neg (by decide), h, if_neg (by decide)]
  norm_num

/-- C9: an inactive or blocked client is 🔴 whatever its statistics; an
active non-blocked client is 🟢 for handshake "3 days, 2 hours ago", 🟡 for
"10 days ago", 🟠 for "20 days ago", and ⚪ for "never", for the empty
handshake string, and for a missing statistics record. -/
theorem activity_emoji_cases (c : Client) :
    (∀ stats, (c.is_active = false ∨ c.is_blocked = true) →
        get_activity_emoji c stats = "🔴") ∧
    (c.is_active = true → c.is_blocked = false →
      (get_activity_emoji c (some [("latest handshake", "3 days, 2 hours ago")]) = "🟢" ∧
       get_activity_emoji c (some [("latest handshake", "10 days ago")]) = "🟡" ∧
       get_activity_emoji c (some [("latest handshake", "20 days ago")]) = "🟠" ∧
       get_activity_emoji c (some [("latest handshake", "never")]) = "⚪" ∧
       get_activity_emoji c (some [("latest handshake", "")]) = "⚪" ∧
       get_activity_emoji c Option.none = "⚪")) := by
  constructor
  · intro stats h
    unfold get_activity_emoji
    rw [if_pos]
    rcases h with h | h
    · exact Or.inl (by simp [h])
    · exact Or.inr (by simp [h])
  · intro ha hb
    refine ⟨?_, ?_, ?_, ?_, ?_, ?_⟩
    · rw [get_activity_emoji_active c ha hb, parse_three_days]
      norm_num
    · rw [get_activity_emoji_active c ha hb, parse_ten_days]
      norm_num
    · rw [get_activity_emoji_active c ha hb, parse_twenty_days]
      norm_num
    · rw [get_activity_emoji_active c ha hb]
      have h : parse_handshake_to_days "never" = Option.none := by decide
      rw [h]
    · rw [get_activity_emoji_active c ha hb]
      have h : parse_handshake_to_days "" = Option.none := by decide
      rw [h]
    · unfold get_activity_emoji
      rw [if_neg (by simp [ha, hb])]

/-- Witness for C9 at concrete clients. -/
theorem activity_emoji_cases_witness :
    get_activity_emoji { sampleClient with is_blocked := true }
      (some [("latest handshake", "3 days, 2 hours ago")]) = "🔴" ∧
    get_activity_emoji sampleClient
      (some [("latest handshake", "3 days, 2 hours ago")]) = "🟢" :=
  ⟨(activity_emoji_cases { sampleClient with is_blocked := true }).1 _
      (Or.inr rfl),
   ((activity_emoji_cases sampleClient).2 rfl rfl).1⟩

end AWGBot
